import Mathlib

/-!
Verification of the Manus MCP bridge server (`src/server.py`).

The server exposes five tools: `create_task`, `get_task_status`,
`list_tasks`, `continue_task` and `get_server_info`.  The first four
build an HTTP request from their arguments and the process-wide
configuration, issue it, and pass the `httpx.Response` through
`_handle_response`; the last returns a static mapping.  We shallowly
embed the configuration, the JSON values exchanged, the request each
tool builds, and the response normalisation, and prove the specified
properties about them.

JSON numbers are modelled as integers (no claim involves fractional
numbers).  A response body is modelled as `Option Json`: `some j` when
the body decodes to the JSON value `j`, `none` when it is not decodable
JSON.  Python's `str(e)` for the `httpx.HTTPStatusError` raised by
`raise_for_status` is an opaque string parameter `strE` of the model;
all theorems hold for every value of it.
-/

namespace ManusMCP

/-- JSON values, as decoded by `response.json()` / sent as request payloads.
Object fields are kept in insertion order, as Python dicts do. -/
inductive Json where
  | null : Json
  | bool : Bool → Json
  | num : Int → Json
  | str : String → Json
  | arr : List Json → Json
  | obj : List (String × Json) → Json

/-- Key lookup in an association list, used both for Python `dict.get`
on decoded JSON objects and to state which field a payload carries. -/
def lookupKey {α : Type} : List (String × α) → String → Option α
  | [], _ => none
  | (k, v) :: rest, key => if k = key then some v else lookupKey rest key

/-- A single-quote character, used by Python `repr` of strings. -/
def squote : String := String.singleton (Char.ofNat 39)

mutual
/-- Python `repr` of a decoded JSON value (string escaping inside `repr`
is not modelled; no claim exercises it). -/
def pyRepr : Json → String
  | .null => "None"
  | .bool true => "True"
  | .bool false => "False"
  | .num n => toString n
  | .str s => squote ++ s ++ squote
  | .arr xs => "[" ++ pyReprList xs ++ "]"
  | .obj fs => "\x7b" ++ pyReprFields fs ++ "\x7d"

/-- Comma-separated `repr`s of list elements. -/
def pyReprList : List Json → String
  | [] => ""
  | [j] => pyRepr j
  | j :: rest => pyRepr j ++ ", " ++ pyReprList rest

/-- Comma-separated `key: value` `repr`s of dict entries. -/
def pyReprFields : List (String × Json) → String
  | [] => ""
  | [(k, v)] => pyRepr (.str k) ++ ": " ++ pyRepr v
  | (k, v) :: rest => pyRepr (.str k) ++ ": " ++ pyRepr v ++ ", " ++ pyReprFields rest
end

/-- Python `str` of a decoded JSON value: identity on strings,
`repr` otherwise, as used by the f-string in `_handle_response`. -/
def pyStr : Json → String
  | .str s => s
  | j => pyRepr j

/-- The process-wide configuration, loaded once from the environment
(lines 12-14 of `server.py`). -/
structure Config where
  MANUS_API_KEY : String
  MANUS_API_BASE : String
  MANUS_AGENT_PROFILE : String

/-- Configuration loading: `os.environ.get` with the source defaults. -/
def loadConfig (env : String → Option String) : Config where
  MANUS_API_KEY := (env "MANUS_API_KEY").getD ""
  MANUS_API_BASE := (env "MANUS_API_BASE").getD "https://api.manus.im/v1"
  MANUS_AGENT_PROFILE := (env "MANUS_AGENT_PROFILE").getD "manus-1.6"

/-- Headers attached to every outbound request (`_get_headers`). -/
def _get_headers (cfg : Config) : List (String × String) :=
  [("API_KEY", cfg.MANUS_API_KEY), ("Content-Type", "application/json")]

/-- HTTP methods used by the bridge. -/
inductive Method where
  | GET : Method
  | POST : Method

/-- Values of query parameters passed to `httpx.Client.get`:
`list_tasks` sends an integer `limit`, an optional list-valued `status`
and an optional string `project_id`. -/
inductive QueryValue where
  | num : Int → QueryValue
  | str : String → QueryValue
  | list : List String → QueryValue

/-- An outbound HTTP request as assembled by a tool. -/
structure HttpRequest where
  method : Method
  url : String
  headers : List (String × String)
  jsonPayload : Option Json
  params : List (String × QueryValue)
  timeoutSecs : Nat

/-- An inbound HTTP response: its status code and its body, the latter
as `some j` when the body is decodable JSON and `none` otherwise. -/
structure HttpResponse where
  status_code : Nat
  jsonBody : Option Json

/-- httpx's `response.is_success`: status in the range 200-299.
`raise_for_status` raises `HTTPStatusError` exactly when this is false. -/
def is2xx (code : Nat) : Bool := 200 ≤ code && code < 300

/-- The error message computed on the `HTTPStatusError` branch of
`_handle_response`: start from `f"Manus API Error: {e}"`; if the body
decodes to a JSON dict, replace it by
`f"Manus API Error: {error_body.get('message', str(e))}"`;
any failure inside that attempt (body not decodable, or decoded value
not a dict so `.get` raises `AttributeError`) is swallowed by the bare
`except`, keeping the initial message.  `strE` is Python's `str(e)`. -/
def errorMessage (r : HttpResponse) (strE : String) : String :=
  match r.jsonBody with
  | some (Json.obj fields) =>
    match lookupKey fields "message" with
    | some v => "Manus API Error: " ++ pyStr v
    | none => "Manus API Error: " ++ strE
  | _ => "Manus API Error: " ++ strE

/-- `_handle_response` (lines 27-39): `raise_for_status` then
`response.json()` on success; on `HTTPStatusError`, the error envelope
`{"error": error_msg, "status_code": response.status_code}`.  A 2xx
response whose body is not decodable JSON makes `response.json()` raise
`json.JSONDecodeError`, which the `except httpx.HTTPStatusError` clause
does not catch, so it propagates: modelled as `Except.error`. -/
def _handle_response (r : HttpResponse) (strE : String) : Except String Json :=
  if is2xx r.status_code then
    match r.jsonBody with
    | some j => Except.ok j
    | none => Except.error "JSONDecodeError"
  else
    Except.ok (Json.obj
      [("error", Json.str (errorMessage r strE)),
       ("status_code", Json.num r.status_code)])

/-- Python `x or default` for `x : Optional[str]`: the default is used
when `x` is `None` or the empty string (both falsy). -/
def pyOrStr (x : Option String) (d : String) : String :=
  match x with
  | some s => if s = "" then d else s
  | none => d

/-- Python `x or default` for `x : Optional[int]`: the default is used
when `x` is `None` or `0` (both falsy). -/
def pyOrInt (x : Option Int) (d : Int) : Int :=
  match x with
  | some n => if n = 0 then d else n
  | none => d

/-- Python truthiness of an `Optional[str]`: `None` and `""` are falsy. -/
def truthyOptStr : Option String → Bool
  | some s => !(s == "")
  | none => false

/-- The JSON payload `create_task` builds (lines 60-67): `prompt`,
`agentProfile` with the `or`-fallback to the configured default,
`taskMode` with the `or`-fallback to `"agent"`, and `projectId` only
when `project_id` is truthy. -/
def create_task_payload (cfg : Config) (prompt : String)
    (agent_profile task_mode project_id : Option String) : List (String × Json) :=
  [("prompt", Json.str prompt),
   ("agentProfile", Json.str (pyOrStr agent_profile cfg.MANUS_AGENT_PROFILE)),
   ("taskMode", Json.str (pyOrStr task_mode "agent"))]
  ++ (if truthyOptStr project_id
      then [("projectId", Json.str (project_id.getD ""))] else [])

/-- The request `create_task` issues: POST `{base}/tasks`, 60 s timeout.
The Python defaults of the optional arguments are `agent_profile=None`,
`task_mode="agent"`, `project_id=None`. -/
def create_task_request (cfg : Config) (prompt : String)
    (agent_profile task_mode project_id : Option String) : HttpRequest where
  method := Method.POST
  url := cfg.MANUS_API_BASE ++ "/tasks"
  headers := _get_headers cfg
  jsonPayload := some (Json.obj (create_task_payload cfg prompt agent_profile task_mode project_id))
  params := []
  timeoutSecs := 60

/-- The request `get_task_status` issues: GET `{base}/tasks/{task_id}`,
30 s timeout, no payload, no query parameters. -/
def get_task_status_request (cfg : Config) (task_id : String) : HttpRequest where
  method := Method.GET
  url := cfg.MANUS_API_BASE ++ "/tasks/" ++ task_id
  headers := _get_headers cfg
  jsonPayload := none
  params := []
  timeoutSecs := 30

/-- The query parameters `list_tasks` builds (lines 92-97):
`limit` with the `or`-fallback to 20, then `status` as a one-element
list when truthy, then `project_id` when truthy.  The Python defaults
are `status=None`, `limit=20`, `project_id=None`. -/
def list_tasks_params (status : Option String) (limit : Option Int)
    (project_id : Option String) : List (String × QueryValue) :=
  [("limit", QueryValue.num (pyOrInt limit 20))]
  ++ (if truthyOptStr status then [("status", QueryValue.list [status.getD ""])] else [])
  ++ (if truthyOptStr project_id then [("project_id", QueryValue.str (project_id.getD ""))] else [])

/-- The request `list_tasks` issues: GET `{base}/tasks` with the query
parameters above, 30 s timeout. -/
def list_tasks_request (cfg : Config) (status : Option String)
    (limit : Option Int) (project_id : Option String) : HttpRequest where
  method := Method.GET
  url := cfg.MANUS_API_BASE ++ "/tasks"
  headers := _get_headers cfg
  jsonPayload := none
  params := list_tasks_params status limit project_id
  timeoutSecs := 30

/-- The JSON payload `continue_task` builds (lines 109-113): `prompt`,
the configured default agent profile, and `taskId`.  The function takes
no agent-profile argument, so no per-call override exists. -/
def continue_task_payload (cfg : Config) (task_id prompt : String) : List (String × Json) :=
  [("prompt", Json.str prompt),
   ("agentProfile", Json.str cfg.MANUS_AGENT_PROFILE),
   ("taskId", Json.str task_id)]

/-- The request `continue_task` issues: POST `{base}/tasks`, 60 s timeout. -/
def continue_task_request (cfg : Config) (task_id prompt : String) : HttpRequest where
  method := Method.POST
  url := cfg.MANUS_API_BASE ++ "/tasks"
  headers := _get_headers cfg
  jsonPayload := some (Json.obj (continue_task_payload cfg task_id prompt))
  params := []
  timeoutSecs := 60

/-- The static mapping `get_server_info` returns (lines 123-129). -/
def get_server_info_fields (cfg : Config) : List (String × Json) :=
  [("server_name", Json.str "Manus AI MCP Server"),
   ("version", Json.str "1.0.0"),
   ("description", Json.str "Bridge between Poke AI and Manus AI"),
   ("manus_api_base", Json.str cfg.MANUS_API_BASE),
   ("agent_profile", Json.str cfg.MANUS_AGENT_PROFILE)]

/-- One tool invocation: the outbound requests it issued and its
outcome (`Except.ok` a returned mapping, `Except.error` a propagated
Python exception). -/
structure ToolRun where
  requests : List HttpRequest
  result : Except String Json

/-- The network environment a run interacts with: for an outbound
request, the response received and Python's `str(e)` rendering of the
`HTTPStatusError` that `raise_for_status` would raise for it. -/
def Net : Type := HttpRequest → HttpResponse × String

/-- A network environment that answers every request identically, used
to instantiate theorems at concrete inputs. -/
def constNet (r : HttpResponse) (strE : String) : Net := fun _ => (r, strE)

/-- A full `create_task` call: issues its request, returns the handled
response. -/
def create_task_run (cfg : Config) (prompt : String)
    (agent_profile task_mode project_id : Option String) (net : Net) : ToolRun where
  requests := [create_task_request cfg prompt agent_profile task_mode project_id]
  result := _handle_response
    (net (create_task_request cfg prompt agent_profile task_mode project_id)).1
    (net (create_task_request cfg prompt agent_profile task_mode project_id)).2

/-- A full `get_task_status` call. -/
def get_task_status_run (cfg : Config) (task_id : String) (net : Net) : ToolRun where
  requests := [get_task_status_request cfg task_id]
  result := _handle_response
    (net (get_task_status_request cfg task_id)).1
    (net (get_task_status_request cfg task_id)).2

/-- A full `list_tasks` call. -/
def list_tasks_run (cfg : Config) (status : Option String) (limit : Option Int)
    (project_id : Option String) (net : Net) : ToolRun where
  requests := [list_tasks_request cfg status limit project_id]
  result := _handle_response
    (net (list_tasks_request cfg status limit project_id)).1
    (net (list_tasks_request cfg status limit project_id)).2

/-- A full `continue_task` call. -/
def continue_task_run (cfg : Config) (task_id prompt : String) (net : Net) : ToolRun where
  requests := [continue_task_request cfg task_id prompt]
  result := _handle_response
    (net (continue_task_request cfg task_id prompt)).1
    (net (continue_task_request cfg task_id prompt)).2

/-- A full `get_server_info` call: issues no request, returns the
static mapping. -/
def get_server_info_run (cfg : Config) (_net : Net) : ToolRun where
  requests := []
  result := Except.ok (Json.obj (get_server_info_fields cfg))

end ManusMCP

namespace ManusMCP

/-- Every error message built by `_handle_response` starts with the
non-empty literal `"Manus API Error: "`, hence is non-empty. -/
theorem manus_msg_ne_empty (s : String) : "Manus API Error: " ++ s ≠ "" := by
  intro h
  have hl : ("Manus API Error: " ++ s).length = ("" : String).length :=
    congrArg String.length h
  rw [String.length_append] at hl
  have h17 : ("Manus API Error: " : String).length = 17 := rfl
  have h0 : ("" : String).length = 0 := rfl
  omega

/-- The error message is non-empty whatever the response body and
`str(e)` are. -/
theorem errorMessage_ne_empty (r : HttpResponse) (strE : String) :
    errorMessage r strE ≠ "" := by
  have h : ∀ t : String, "Manus API Error: " ++ t ≠ "" := manus_msg_ne_empty
  rcases r with ⟨code, body⟩
  match body with
  | none => exact h strE
  | some Json.null => exact h strE
  | some (Json.bool b) => exact h strE
  | some (Json.num n) => exact h strE
  | some (Json.str s) => exact h strE
  | some (Json.arr xs) => exact h strE
  | some (Json.obj fields) =>
    match hl : lookupKey fields "message" with
    | some v =>
      simp only [errorMessage, hl]
      exact h (pyStr v)
    | none =>
      simp only [errorMessage, hl]
      exact h strE

/-- The exhaustive case analysis of what `_handle_response` does with a
response `r`: a 2xx response with decodable body returns the decoded
body; a non-2xx response returns the error envelope with a non-empty
message; a 2xx response with a non-decodable body propagates the
`json.JSONDecodeError` raised by `response.json()`. -/
def resultShapes (r : HttpResponse) (res : Except String Json) : Prop :=
  (is2xx r.status_code = true ∧ ∃ j, r.jsonBody = some j ∧ res = Except.ok j)
  ∨ (is2xx r.status_code = false ∧ ∃ msg, msg ≠ "" ∧
      res = Except.ok (Json.obj
        [("error", Json.str msg), ("status_code", Json.num r.status_code)]))
  ∨ (is2xx r.status_code = true ∧ r.jsonBody = none ∧
      res = Except.error "JSONDecodeError")

/-- `_handle_response` always lands in one of the three cases of
`resultShapes`. -/
theorem handle_response_shapes (r : HttpResponse) (strE : String) :
    resultShapes r (_handle_response r strE) := by
  unfold resultShapes _handle_response
  by_cases h : is2xx r.status_code
  · cases hb : r.jsonBody with
    | some j =>
      exact Or.inl ⟨h, j, rfl, by rw [if_pos h]⟩
    | none =>
      exact Or.inr (Or.inr ⟨h, rfl, by rw [if_pos h]⟩)
  · refine Or.inr (Or.inl ⟨by simpa using h, errorMessage r strE,
      errorMessage_ne_empty r strE, ?_⟩)
    rw [if_neg h]

end ManusMCP

namespace ManusMCP

/-- A concrete configuration used to instantiate theorems: the one
`loadConfig` produces from an empty environment. -/
def cfg0 : Config := loadConfig (fun _ => none)

/-- On a non-2xx response with a body that is not decodable JSON,
`_handle_response` returns the error envelope built from `str(e)`. -/
theorem handle_response_non2xx_undecodable (code : Nat) (strE : String)
    (h : is2xx code = false) :
    _handle_response (HttpResponse.mk code none) strE =
      Except.ok (Json.obj
        [("error", Json.str ("Manus API Error: " ++ strE)),
         ("status_code", Json.num code)]) := by
  simp [_handle_response, h, errorMessage]

/-- C1 (amended): for every remote-calling operation
(`create_task`, `get_task_status`, `list_tasks`, `continue_task`) and
every network environment, the outcome is one of exactly three cases:
the decoded JSON body of a 2xx response, the error envelope
(with a non-empty message and the response's status code) for a
non-2xx response, or — the case the original claim misses — a
propagated `json.JSONDecodeError` when a 2xx response's body is not
decodable JSON. -/
theorem C1_result_shapes (cfg : Config) (net : Net)
    (prompt task_id : String) (ap tm pid st : Option String) (lim : Option Int) :
    resultShapes (net (create_task_request cfg prompt ap tm pid)).1
      (create_task_run cfg prompt ap tm pid net).result
    ∧ resultShapes (net (get_task_status_request cfg task_id)).1
      (get_task_status_run cfg task_id net).result
    ∧ resultShapes (net (list_tasks_request cfg st lim pid)).1
      (list_tasks_run cfg st lim pid net).result
    ∧ resultShapes (net (continue_task_request cfg task_id prompt)).1
      (continue_task_run cfg task_id prompt net).result :=
  ⟨handle_response_shapes _ _, handle_response_shapes _ _,
   handle_response_shapes _ _, handle_response_shapes _ _⟩

/-- C1 (counterexample): a 2xx response whose body is not decodable
JSON is not reduced to either envelope shape: `get_task_status` on an
HTTP 200 response with a non-JSON body propagates the
`json.JSONDecodeError` raised by `response.json()` instead of
returning a mapping to the caller. -/
theorem C1_counterexample :
    (get_task_status_run cfg0 "t1"
      (constNet (HttpResponse.mk 200 none) "")).result
      = Except.error "JSONDecodeError"
    ∧ ((get_task_status_run cfg0 "t1"
      (constNet (HttpResponse.mk 200 none) "")).result).isOk = false :=
  ⟨rfl, rfl⟩

/-- C2: for every remote-calling operation, a response with HTTP
status 404 and JSON body `{"message": "not found"}` yields the return
value `{"error": "Manus API Error: not found", "status_code": 404}`,
whatever the configuration, arguments and `str(e)` rendering are. -/
theorem C2_not_found_envelope (cfg : Config) (strE : String)
    (prompt task_id : String) (ap tm pid st : Option String) (lim : Option Int) :
    (create_task_run cfg prompt ap tm pid
        (constNet (HttpResponse.mk 404 (some (Json.obj [("message", Json.str "not found")]))) strE)).result
      = Except.ok (Json.obj
          [("error", Json.str "Manus API Error: not found"),
           ("status_code", Json.num 404)])
    ∧ (get_task_status_run cfg task_id
        (constNet (HttpResponse.mk 404 (some (Json.obj [("message", Json.str "not found")]))) strE)).result
      = Except.ok (Json.obj
          [("error", Json.str "Manus API Error: not found"),
           ("status_code", Json.num 404)])
    ∧ (list_tasks_run cfg st lim pid
        (constNet (HttpResponse.mk 404 (some (Json.obj [("message", Json.str "not found")]))) strE)).result
      = Except.ok (Json.obj
          [("error", Json.str "Manus API Error: not found"),
           ("status_code", Json.num 404)])
    ∧ (continue_task_run cfg task_id prompt
        (constNet (HttpResponse.mk 404 (some (Json.obj [("message", Json.str "not found")]))) strE)).result
      = Except.ok (Json.obj
          [("error", Json.str "Manus API Error: not found"),
           ("status_code", Json.num 404)]) :=
  ⟨rfl, rfl, rfl, rfl⟩

/-- C3: for every remote-calling operation, a response with a non-2xx
HTTP status whose body is not decodable JSON yields an envelope whose
`error` field is a non-empty string and whose `status_code` equals the
numeric HTTP status; no exception is propagated (the outcome is
`Except.ok` of the envelope). -/
theorem C3_non2xx_undecodable (cfg : Config) (code : Nat) (strE : String)
    (prompt task_id : String) (ap tm pid st : Option String) (lim : Option Int)
    (h : is2xx code = false) :
    "Manus API Error: " ++ strE ≠ ""
    ∧ (create_task_run cfg prompt ap tm pid (constNet (HttpResponse.mk code none) strE)).result
      = Except.ok (Json.obj
          [("error", Json.str ("Manus API Error: " ++ strE)),
           ("status_code", Json.num code)])
    ∧ (get_task_status_run cfg task_id (constNet (HttpResponse.mk code none) strE)).result
      = Except.ok (Json.obj
          [("error", Json.str ("Manus API Error: " ++ strE)),
           ("status_code", Json.num code)])
    ∧ (list_tasks_run cfg st lim pid (constNet (HttpResponse.mk code none) strE)).result
      = Except.ok (Json.obj
          [("error", Json.str ("Manus API Error: " ++ strE)),
           ("status_code", Json.num code)])
    ∧ (continue_task_run cfg task_id prompt (constNet (HttpResponse.mk code none) strE)).result
      = Except.ok (Json.obj
          [("error", Json.str ("Manus API Error: " ++ strE)),
           ("status_code", Json.num code)]) :=
  ⟨manus_msg_ne_empty strE,
   handle_response_non2xx_undecodable code strE h,
   handle_response_non2xx_undecodable code strE h,
   handle_response_non2xx_undecodable code strE h,
   handle_response_non2xx_undecodable code strE h⟩

/-- C3 witness: instance at HTTP 500 with a non-JSON body. -/
theorem C3_witness :
    "Manus API Error: " ++ "Server error" ≠ ""
    ∧ (create_task_run cfg0 "p" none (some "agent") none (constNet (HttpResponse.mk 500 none) "Server error")).result
      = Except.ok (Json.obj
          [("error", Json.str ("Manus API Error: " ++ "Server error")),
           ("status_code", Json.num 500)])
    ∧ (get_task_status_run cfg0 "t" (constNet (HttpResponse.mk 500 none) "Server error")).result
      = Except.ok (Json.obj
          [("error", Json.str ("Manus API Error: " ++ "Server error")),
           ("status_code", Json.num 500)])
    ∧ (list_tasks_run cfg0 none (some 20) none (constNet (HttpResponse.mk 500 none) "Server error")).result
      = Except.ok (Json.obj
          [("error", Json.str ("Manus API Error: " ++ "Server error")),
           ("status_code", Json.num 500)])
    ∧ (continue_task_run cfg0 "t" "p" (constNet (HttpResponse.mk 500 none) "Server error")).result
      = Except.ok (Json.obj
          [("error", Json.str ("Manus API Error: " ++ "Server error")),
           ("status_code", Json.num 500)]) :=
  C3_non2xx_undecodable cfg0 500 "Server error" "p" "t" none (some "agent") none none (some 20) rfl

end ManusMCP

namespace ManusMCP

/-- C4: the `agentProfile` field of the body `create_task` sends equals
the caller-supplied `agent_profile` when a (truthy) value is supplied,
and the configured default when the argument is omitted (`None`). -/
theorem C4_agent_profile (cfg : Config) (prompt : String)
    (tm pid : Option String) (s : String) (h : s ≠ "") :
    lookupKey (create_task_payload cfg prompt (some s) tm pid) "agentProfile"
      = some (Json.str s)
    ∧ lookupKey (create_task_payload cfg prompt none tm pid) "agentProfile"
      = some (Json.str cfg.MANUS_AGENT_PROFILE) := by
  have hs : pyOrStr (some s) cfg.MANUS_AGENT_PROFILE = s := by
    show (if s = "" then cfg.MANUS_AGENT_PROFILE else s) = s
    rw [if_neg h]
  refine ⟨?_, rfl⟩
  show some (Json.str (pyOrStr (some s) cfg.MANUS_AGENT_PROFILE)) = some (Json.str s)
  rw [hs]

/-- C4 witness: instance with a supplied profile and with the argument
omitted, under the default configuration. -/
theorem C4_witness :
    lookupKey (create_task_payload cfg0 "p" (some "manus-1.6-max") (some "agent") none) "agentProfile"
      = some (Json.str "manus-1.6-max")
    ∧ lookupKey (create_task_payload cfg0 "p" none (some "agent") none) "agentProfile"
      = some (Json.str cfg0.MANUS_AGENT_PROFILE) :=
  C4_agent_profile cfg0 "p" (some "agent") none "manus-1.6-max" (by decide)

/-- C5: the body `continue_task` sends carries exactly `prompt`,
`agentProfile` equal to the configured default, and `taskId` equal to
the given task id; since this holds for every call and the payload has
no other field, the caller has no way to override the profile per call. -/
theorem C5_continue_task_payload (cfg : Config) (task_id prompt : String) :
    lookupKey (continue_task_payload cfg task_id prompt) "prompt"
      = some (Json.str prompt)
    ∧ lookupKey (continue_task_payload cfg task_id prompt) "taskId"
      = some (Json.str task_id)
    ∧ lookupKey (continue_task_payload cfg task_id prompt) "agentProfile"
      = some (Json.str cfg.MANUS_AGENT_PROFILE)
    ∧ continue_task_payload cfg task_id prompt =
        [("prompt", Json.str prompt),
         ("agentProfile", Json.str cfg.MANUS_AGENT_PROFILE),
         ("taskId", Json.str task_id)] :=
  ⟨rfl, rfl, rfl, rfl⟩

/-- C6: when `task_mode` is omitted — Python substitutes its default
value `"agent"` — the body `create_task` sends has
`taskMode = "agent"`, whatever the other arguments are. -/
theorem C6_task_mode_default (cfg : Config) (prompt : String)
    (ap pid : Option String) :
    lookupKey (create_task_payload cfg prompt ap (some "agent") pid) "taskMode"
      = some (Json.str "agent") := rfl

/-- C7: `list_tasks` called with no arguments — Python substitutes the
defaults `status=None`, `limit=20`, `project_id=None` — sends a GET
request whose query parameters are exactly `limit=20`, with neither a
`status` nor a `project_id` parameter. -/
theorem C7_list_tasks_no_args (cfg : Config) :
    (list_tasks_request cfg none (some 20) none).method = Method.GET
    ∧ (list_tasks_request cfg none (some 20) none).params
      = [("limit", QueryValue.num 20)]
    ∧ lookupKey (list_tasks_request cfg none (some 20) none).params "status" = none
    ∧ lookupKey (list_tasks_request cfg none (some 20) none).params "project_id" = none :=
  ⟨rfl, rfl, rfl, rfl⟩

/-- C8: when `list_tasks` is called with a (truthy) `status` argument,
the `status` query parameter is sent as the single-element list
containing that value. -/
theorem C8_status_singleton (cfg : Config) (s : String) (lim : Option Int)
    (pid : Option String) (h : s ≠ "") :
    lookupKey (list_tasks_request cfg (some s) lim pid).params "status"
      = some (QueryValue.list [s]) := by
  have ht : truthyOptStr (some s) = true := by
    simp [truthyOptStr, h]
  show lookupKey (list_tasks_params (some s) lim pid) "status"
    = some (QueryValue.list [s])
  unfold list_tasks_params
  rw [ht]
  exact rfl

/-- C8 witness: `list_tasks(status="completed")`. -/
theorem C8_witness :
    lookupKey (list_tasks_request cfg0 (some "completed") (some 20) none).params "status"
      = some (QueryValue.list ["completed"]) :=
  C8_status_singleton cfg0 "completed" (some 20) none (by decide)

/-- C9: `get_server_info` issues no network request, and the returned
mapping's `manus_api_base` and `agent_profile` fields are verbatim the
configured API base URL and default agent profile. -/
theorem C9_server_info (cfg : Config) (net : Net) :
    (get_server_info_run cfg net).requests = []
    ∧ (get_server_info_run cfg net).result
      = Except.ok (Json.obj (get_server_info_fields cfg))
    ∧ lookupKey (get_server_info_fields cfg) "manus_api_base"
      = some (Json.str cfg.MANUS_API_BASE)
    ∧ lookupKey (get_server_info_fields cfg) "agent_profile"
      = some (Json.str cfg.MANUS_AGENT_PROFILE) :=
  ⟨rfl, rfl, rfl, rfl⟩

/-- C10: every falsy optional argument behaves as if omitted:
empty-string `agent_profile` and `task_mode` in `create_task` fall
back to the configured default and `"agent"`; empty-string or omitted
`project_id` leaves `projectId` out of the body; empty-string `status`
and `project_id` in `list_tasks` leave those query parameters out; and
`limit=0` or `limit=None` falls back to 20. -/
theorem C10_falsy_fallbacks (cfg : Config) (prompt : String)
    (tm pid st : Option String) (lim : Option Int) :
    lookupKey (create_task_payload cfg prompt (some "") tm pid) "agentProfile"
      = some (Json.str cfg.MANUS_AGENT_PROFILE)
    ∧ lookupKey (create_task_payload cfg prompt none tm pid) "agentProfile"
      = some (Json.str cfg.MANUS_AGENT_PROFILE)
    ∧ lookupKey (create_task_payload cfg prompt none (some "") pid) "taskMode"
      = some (Json.str "agent")
    ∧ lookupKey (create_task_payload cfg prompt none tm (some "")) "projectId" = none
    ∧ lookupKey (create_task_payload cfg prompt none tm none) "projectId" = none
    ∧ lookupKey (list_tasks_params (some "") lim none) "status" = none
    ∧ lookupKey (list_tasks_params none lim (some "")) "project_id" = none
    ∧ lookupKey (list_tasks_params st (some 0) pid) "limit"
      = some (QueryValue.num 20)
    ∧ lookupKey (list_tasks_params st none pid) "limit"
      = some (QueryValue.num 20) :=
  ⟨rfl, rfl, rfl, rfl, rfl, rfl, rfl, rfl, rfl⟩

end ManusMCP
